import Mathlib

/-!
Shallow embedding of the departure/message pipeline of the
`munich_public_transport` Home Assistant integration.

Sources embedded:
* `custom_components/munich_public_transport/api.py`
  (`fetch_departures` normalization stage, `get_icon`,
  `calculate_minutes_until`, `fetch_messages` record shape);
* `custom_components/munich_public_transport/sensor.py`
  (`async_update_departures`, `async_update_messages`,
  `MessagesSensor._filter_messages`, `MessagesSensor._format_validity`).

Epoch timestamps are modelled as integers (seconds); millisecond inputs are
integers and the Python `/ 1000` and `int(... / 60)` conversions are modelled
with integer division truncating toward zero (`Int.tdiv`), which agrees with
Python on the non-negative epoch values the API delivers.  Python `dict`s
keyed by `(line, destination)` are modelled as association lists in key
insertion order, matching the iteration order the code relies on.
-/

/-- A raw departure record as parsed from the API JSON: every field the code
reads, each `Option` because the JSON object may lack the key. -/
structure RawDeparture where
  label : Option String
  destination : Option String
  realtimeDepartureTime : Option Int
  plannedDepartureTime : Option Int
  transportType : Option String
  cancelled : Option Bool
  messages : Option (List String)
  platform : Option String
  delayInMinutes : Option Int
  occupancy : Option String
  network : Option String
deriving DecidableEq

/-- A normalized departure, the dict built inside
`MunichTransportAPI.fetch_departures` (api.py lines 66-79). -/
structure Departure where
  line : String
  destination : String
  realtime_departure : Int
  planned_departure : Int
  type : String
  cancelled : Bool
  messages : List String
  platform : String
  delay : Int
  icon : String
  occupancy : String
  network : String
deriving DecidableEq

/-- The icon table of `MunichTransportAPI.get_icon` (api.py lines 113-120). -/
def icons : List (String × String) :=
  [("UBAHN", "mdi:subway-variant"),
   ("TRAM", "mdi:tram"),
   ("SBAHN", "mdi:train"),
   ("BUS", "mdi:bus"),
   ("REGIONAL_BUS", "mdi:bus-clock"),
   ("RUFTAXI", "mdi:taxi")]

/-- `MunichTransportAPI.get_icon`: `icons.get(transport_type, "mdi:train-car")`. -/
def get_icon (transport_type : String) : String :=
  (icons.lookup transport_type).getD "mdi:train-car"

/-- Python `dep["name"]`: a missing key raises `KeyError`. -/
def getRequired (name : String) : Option α → Except String α
  | some v => Except.ok v
  | none => Except.error ("KeyError: " ++ name)

/-- Python `dep.get(name, None) / 1000`: dividing the `None` default by an
int raises `TypeError`; a present value is converted from milliseconds to
seconds. -/
def msToSeconds : Option Int → Except String Int
  | some ms => Except.ok (Int.tdiv ms 1000)
  | none => Except.error "TypeError: unsupported operand for /: NoneType and int"

/-- One entry of the dict comprehension in
`MunichTransportAPI.fetch_departures` (api.py lines 66-79), with the key
expressions evaluated in source order. -/
def normalize_departure (dep : RawDeparture) : Except String Departure := do
  let line ← getRequired "label" dep.label
  let dest ← getRequired "destination" dep.destination
  let rt ← msToSeconds dep.realtimeDepartureTime
  let pt ← msToSeconds dep.plannedDepartureTime
  let tt ← getRequired "transportType" dep.transportType
  Except.ok
    { line := line
      destination := dest
      realtime_departure := rt
      planned_departure := pt
      type := tt
      cancelled := dep.cancelled.getD false
      messages := dep.messages.getD []
      platform := dep.platform.getD ""
      delay := dep.delayInMinutes.getD 0
      icon := get_icon tt
      occupancy := dep.occupancy.getD "UNKNOWN"
      network := dep.network.getD "" }

/-- The normalization stage of `MunichTransportAPI.fetch_departures`
(api.py lines 65-81): one list comprehension over the parsed JSON records;
the first per-record exception aborts the whole comprehension. -/
def fetch_departures_normalize (data : List RawDeparture) :
    Except String (List Departure) :=
  data.mapM normalize_departure

/-- `MunichTransportAPI.calculate_minutes_until` (api.py lines 146-152):
`max(0, int((timestamp - now).total_seconds() / 60))`, with Python `int()`
truncation toward zero modelled by `Int.tdiv`. -/
def calculate_minutes_until (timestamp now : Int) : Int :=
  max 0 (Int.tdiv (timestamp - now) 60)

/-- The comparison key used by both `sorted(...)` calls in
`async_update_departures`: `lambda x: x["realtime_departure"]`. -/
def depLE (a b : Departure) : Prop :=
  a.realtime_departure ≤ b.realtime_departure

instance : DecidableRel depLE := fun a b =>
  inferInstanceAs (Decidable (a.realtime_departure ≤ b.realtime_departure))

instance : IsTotal Departure depLE :=
  ⟨fun a b => Int.le_total a.realtime_departure b.realtime_departure⟩

instance : IsTrans Departure depLE :=
  ⟨fun _ _ _ hab hbc => le_trans hab hbc⟩

/-- The filter condition of `async_update_departures` (sensor.py lines
74-75): `(not selected_lines or dep["line"] in selected_lines) and
(not selected_directions or dep["destination"] in selected_directions)`. -/
def passes_filter (selected_lines selected_directions : List String)
    (dep : Departure) : Bool :=
  (selected_lines.isEmpty || selected_lines.contains dep.line) &&
    (selected_directions.isEmpty || selected_directions.contains dep.destination)

/-- The claim's reading of the filter condition, as a proposition:
(selectedLines empty OR line is a member) AND (selectedDirections empty OR
destination is a member).  Compared against `passes_filter` from the code. -/
def passes_filter_spec (selected_lines selected_directions : List String)
    (dep : Departure) : Prop :=
  (selected_lines = [] ∨ dep.line ∈ selected_lines) ∧
    (selected_directions = [] ∨ dep.destination ∈ selected_directions)

/-- `grouped_departures[key].append(dep)`, creating the key on first use
(sensor.py lines 76-79); a Python dict keeps keys in insertion order, so the
model is an association list extended at the end on a fresh key. -/
def addToGroups : List ((String × String) × List Departure) →
    (String × String) → Departure → List ((String × String) × List Departure)
  | [], key, dep => [(key, [dep])]
  | kg :: rest, key, dep =>
    if kg.1 = key then (kg.1, kg.2 ++ [dep]) :: rest
    else kg :: addToGroups rest key dep

/-- The filter-and-group loop of `async_update_departures` (sensor.py lines
72-79). -/
def group_departures (selected_lines selected_directions : List String)
    (departures : List Departure) :
    List ((String × String) × List Departure) :=
  departures.foldl
    (fun groups dep =>
      if passes_filter selected_lines selected_directions dep then
        addToGroups groups (dep.line, dep.destination) dep
      else groups)
    []

/-- Sorting and truncating every group (sensor.py lines 82-83):
`sorted(group, key=lambda x: x["realtime_departure"])[:departure_count]`;
Python's `sorted` is stable, as is `List.insertionSort`. -/
def sort_and_limit (departure_count : Nat)
    (groups : List ((String × String) × List Departure)) :
    List ((String × String) × List Departure) :=
  groups.map fun kg => (kg.1, (List.insertionSort depLE kg.2).take departure_count)

/-- The flat list built before the global sort (sensor.py lines 86-88):
all departures of all groups, in dict order. -/
def all_filtered (groups : List ((String × String) × List Departure)) :
    List Departure :=
  (groups.map Prod.snd).flatten

/-- The `grouped` value of the snapshot produced by
`async_update_departures`. -/
def snapshot_grouped (selected_lines selected_directions : List String)
    (departure_count : Nat) (departures : List Departure) :
    List ((String × String) × List Departure) :=
  sort_and_limit departure_count
    (group_departures selected_lines selected_directions departures)

/-- The `all` value of the snapshot: the flat group list re-sorted globally
by `realtime_departure` (sensor.py line 89, `list.sort` is stable). -/
def snapshot_all (selected_lines selected_directions : List String)
    (departure_count : Nat) (departures : List Departure) : List Departure :=
  List.insertionSort depLE
    (all_filtered
      (snapshot_grouped selected_lines selected_directions departure_count
        departures))

/-- The dict returned by `async_update_departures` (sensor.py lines 93-97). -/
structure DepartureSnapshot where
  all : List Departure
  grouped : List ((String × String) × List Departure)
  next : Option Departure
deriving DecidableEq

/-- The success path of `async_update_departures` (sensor.py lines 66-97),
applied to already-fetched normalized departures. -/
def async_update_departures_core (selected_lines selected_directions : List String)
    (departure_count : Nat) (departures : List Departure) : DepartureSnapshot :=
  { all := snapshot_all selected_lines selected_directions departure_count departures
    grouped := snapshot_grouped selected_lines selected_directions departure_count departures
    next := (snapshot_all selected_lines selected_directions departure_count
        departures).head? }

/-- `async_update_departures` (sensor.py lines 64-104): the fetch outcome is
passed in as an `Except`; `except Exception` (line 98) maps any error to the
empty snapshot. -/
def async_update_departures (selected_lines selected_directions : List String)
    (departure_count : Nat) (fetched : Except String (List Departure)) :
    DepartureSnapshot :=
  match fetched with
  | Except.ok departures =>
    async_update_departures_core selected_lines selected_directions
      departure_count departures
  | Except.error _ => { all := [], grouped := [], next := none }

/-- A normalized service message as built by
`MunichTransportAPI.fetch_messages` (api.py lines 128-138); validity bounds
are epoch timestamps or absent. -/
structure Message where
  title : String
  description : String
  type : String
  valid_from : Option Int
  valid_to : Option Int
  lines : List String
deriving DecidableEq

/-- `async_update_messages` (sensor.py lines 106-115): any fetch error is
mapped to the empty message list. -/
def async_update_messages (fetched : Except String (List Message)) :
    List Message :=
  match fetched with
  | Except.ok messages => messages
  | Except.error _ => []

/-- The keep condition of `MessagesSensor._filter_messages` (sensor.py lines
417-419): `(not msg["lines"] or any(line in selected for line in
msg["lines"])) and (not msg["valid_from"] or valid_from <= now) and
(not msg["valid_to"] or valid_to >= now)`. -/
def message_keep (selected_lines : List String) (now : Int)
    (msg : Message) : Bool :=
  (msg.lines.isEmpty ||
      msg.lines.any fun line => selected_lines.contains line) &&
    (match msg.valid_from with
     | none => true
     | some t => decide (t ≤ now)) &&
    (match msg.valid_to with
     | none => true
     | some t => decide (now ≤ t))

/-- `MessagesSensor._filter_messages` (sensor.py lines 412-420): a single
list comprehension, i.e. an order-preserving filter. -/
def filter_messages (selected_lines : List String) (now : Int)
    (messages : List Message) : List Message :=
  messages.filter (message_keep selected_lines now)

/-- The claim's reading of the message keep condition, as a proposition.
Compared against `message_keep` from the code. -/
def message_keep_spec (selected_lines : List String) (now : Int)
    (msg : Message) : Prop :=
  (msg.lines = [] ∨ ∃ l, l ∈ msg.lines ∧ l ∈ selected_lines) ∧
    (msg.valid_from = none ∨ ∃ t, msg.valid_from = some t ∧ t ≤ now) ∧
    (msg.valid_to = none ∨ ∃ t, msg.valid_to = some t ∧ now ≤ t)

/-- A Python `datetime` restricted to the fields `_format_validity` reads. -/
structure PyDateTime where
  year : Nat
  month : Nat
  day : Nat
  hour : Nat
  minute : Nat
deriving DecidableEq

/-- Two-digit zero padding, as in `strftime` `%d`, `%m`, `%H`, `%M`. -/
def pad2 (n : Nat) : String :=
  if n < 10 then "0" ++ toString n else toString n

/-- Four-digit zero padding, as in `strftime` `%Y`. -/
def pad4 (n : Nat) : String :=
  if n < 10 then "000" ++ toString n
  else if n < 100 then "00" ++ toString n
  else if n < 1000 then "0" ++ toString n
  else toString n

/-- `strftime("%d.%m.%Y")`. -/
def strftime_dmY (d : PyDateTime) : String :=
  pad2 d.day ++ "." ++ pad2 d.month ++ "." ++ pad4 d.year

/-- `strftime("%H:%M")`. -/
def strftime_HM (d : PyDateTime) : String :=
  pad2 d.hour ++ ":" ++ pad2 d.minute

/-- `strftime("%d.%m.%Y %H:%M")`. -/
def strftime_dmY_HM (d : PyDateTime) : String :=
  strftime_dmY d ++ " " ++ strftime_HM d

/-- `strftime("%Y.%m.%d %H:%M")`, the format of the `Until` branch. -/
def strftime_Ymd_HM (d : PyDateTime) : String :=
  pad4 d.year ++ "." ++ pad2 d.month ++ "." ++ pad2 d.day ++ " " ++ strftime_HM d

/-- `from_date.date() == to_date.date()` (sensor.py line 442). -/
def same_date (a b : PyDateTime) : Bool :=
  a.year == b.year && a.month == b.month && a.day == b.day

/-- `MessagesSensor._format_validity` (sensor.py lines 436-449). -/
def format_validity : Option PyDateTime → Option PyDateTime → String
  | some f, some t =>
    if same_date f t then
      strftime_dmY f ++ " " ++ strftime_HM f ++ " - " ++ strftime_HM t
    else strftime_dmY_HM f ++ " - " ++ strftime_dmY_HM t
  | some f, none => "From " ++ strftime_dmY_HM f
  | none, some t => "Until " ++ strftime_Ymd_HM t
  | none, none => "No specific time"

/-- Concrete departure with the fields the pipeline claims touch. -/
def mkDep (line destination : String) (rt : Int) : Departure :=
  { line := line
    destination := destination
    realtime_departure := rt
    planned_departure := rt
    type := "UBAHN"
    cancelled := false
    messages := []
    platform := ""
    delay := 0
    icon := "mdi:subway-variant"
    occupancy := "UNKNOWN"
    network := "" }

/-- Later departure of the group keyed ("L1", "D"). -/
def exDepLate : Departure := mkDep "L1" "D" 20

/-- Sole departure of the group keyed ("L2", "D"). -/
def exDepOther : Departure := mkDep "L2" "D" 10

/-- Earlier departure of the group keyed ("L1", "D"); same timestamp as
`exDepOther`. -/
def exDepEarly : Departure := mkDep "L1" "D" 10

/-- Input list whose tied entries `exDepOther`, `exDepEarly` sit in
different groups. -/
def exInput : List Departure := [exDepLate, exDepOther, exDepEarly]

/-- A fully populated raw record. -/
def exRawGood : RawDeparture :=
  { label := some "U3"
    destination := some "Muenchner Freiheit"
    realtimeDepartureTime := some 100000
    plannedDepartureTime := some 90000
    transportType := some "UBAHN"
    cancelled := some false
    messages := some []
    platform := some "1"
    delayInMinutes := some 0
    occupancy := some "LOW"
    network := some "swm" }

/-- A raw record with a planned time but no realtime time; every identity
field is present. -/
def exRawPlannedOnly : RawDeparture :=
  { label := some "U3"
    destination := some "Muenchner Freiheit"
    realtimeDepartureTime := none
    plannedDepartureTime := some 90000
    transportType := some "UBAHN"
    cancelled := none
    messages := none
    platform := none
    delayInMinutes := none
    occupancy := none
    network := none }


/-- Same-day pair for the validity formatter. -/
def exDateA : PyDateTime := ⟨2024, 5, 1, 8, 30⟩

/-- Same-day pair for the validity formatter. -/
def exDateB : PyDateTime := ⟨2024, 5, 1, 9, 0⟩

/-- All departures stored in some bucket of an association-list grouping. -/
def group_members (groups : List ((String × String) × List Departure)) :
    List Departure :=
  (groups.map Prod.snd).flatten

theorem mem_group_members_addToGroups
    (groups : List ((String × String) × List Departure))
    (key : String × String) (dep d : Departure) :
    d ∈ group_members (addToGroups groups key dep) ↔
      d ∈ group_members groups ∨ d = dep := by
  induction groups with
  | nil => simp [addToGroups, group_members]
  | cons kg rest ih =>
    by_cases h : kg.1 = key
    · simp only [addToGroups, if_pos h, group_members, List.map_cons,
        List.flatten_cons, List.mem_append, List.mem_singleton] at ih ⊢
      tauto
    · simp only [addToGroups, if_neg h, group_members, List.map_cons,
        List.flatten_cons, List.mem_append] at ih ⊢
      tauto

theorem mem_group_members_foldl (sl sd : List String) (d : Departure)
    (deps : List Departure) :
    ∀ groups : List ((String × String) × List Departure),
      d ∈ group_members (deps.foldl
          (fun groups dep =>
            if passes_filter sl sd dep then
              addToGroups groups (dep.line, dep.destination) dep
            else groups) groups) ↔
        d ∈ group_members groups ∨
          (d ∈ deps ∧ passes_filter sl sd d = true) := by
  induction deps with
  | nil => intro groups; simp
  | cons dep deps ih =>
    intro groups
    rw [List.foldl_cons]
    by_cases h : passes_filter sl sd dep = true
    · rw [if_pos h, ih, mem_group_members_addToGroups]
      constructor
      · rintro ((hg | rfl) | hd)
        · exact Or.inl hg
        · exact Or.inr ⟨List.mem_cons_self _ _, h⟩
        · exact Or.inr ⟨List.mem_cons_of_mem _ hd.1, hd.2⟩
      · rintro (hg | ⟨hm, hp⟩)
        · exact Or.inl (Or.inl hg)
        · rcases List.mem_cons.mp hm with rfl | hm2
          · exact Or.inl (Or.inr rfl)
          · exact Or.inr ⟨hm2, hp⟩
    · rw [if_neg h, ih]
      constructor
      · rintro (hg | hd)
        · exact Or.inl hg
        · exact Or.inr ⟨List.mem_cons_of_mem _ hd.1, hd.2⟩
      · rintro (hg | ⟨hm, hp⟩)
        · exact Or.inl hg
        · rcases List.mem_cons.mp hm with rfl | hm2
          · exact absurd hp h
          · exact Or.inr ⟨hm2, hp⟩

theorem passes_filter_iff (sl sd : List String) (d : Departure) :
    passes_filter sl sd d = true ↔ passes_filter_spec sl sd d := by
  simp [passes_filter, passes_filter_spec, List.isEmpty_iff]

/-- C2: a departure lands in the grouped snapshot data iff it is an input
departure and (selectedLines is empty or contains its line) and
(selectedDirections is empty or contains its destination); with both
selection lists empty every departure passes the filter (pass-all). -/
theorem C2_filter_pass_iff (sl sd : List String) (deps : List Departure)
    (d : Departure) :
    (d ∈ group_members (group_departures sl sd deps) ↔
        d ∈ deps ∧ passes_filter_spec sl sd d) ∧
      (sl = [] → sd = [] → passes_filter sl sd d = true) := by
  constructor
  · rw [group_departures, mem_group_members_foldl sl sd d deps []]
    simp only [group_members, List.map_nil, List.flatten_nil,
      List.not_mem_nil, false_or]
    rw [passes_filter_iff]
  · intro h1 h2
    subst h1; subst h2
    rfl

/-- C2 witness: with both selection lists empty a concrete departure passes
the filter. -/
theorem C2_filter_pass_iff_witness :
    passes_filter [] [] exDepEarly = true :=
  (C2_filter_pass_iff [] [] exInput exDepEarly).2 rfl rfl

theorem filter_orderedInsert_rt (a : Departure) (l : List Departure) (t : Int) :
    (List.orderedInsert depLE a l).filter
        (fun x => decide (x.realtime_departure = t)) =
      if a.realtime_departure = t then
        a :: l.filter (fun x => decide (x.realtime_departure = t))
      else l.filter (fun x => decide (x.realtime_departure = t)) := by
  induction l with
  | nil =>
    by_cases h : a.realtime_departure = t <;>
      simp [List.orderedInsert_nil, List.filter, h]
  | cons b bs ih =>
    show (if depLE a b then a :: b :: bs
        else b :: List.orderedInsert depLE a bs).filter _ = _
    by_cases hab : depLE a b
    · rw [if_pos hab]
      by_cases hat : a.realtime_departure = t <;>
        simp [List.filter_cons, hat]
    · rw [if_neg hab]
      have hba : b.realtime_departure < a.realtime_departure :=
        lt_of_not_le hab
      rw [List.filter_cons, ih]
      by_cases hat : a.realtime_departure = t
      · have hbt : ¬ b.realtime_departure = t := by omega
        simp [List.filter_cons, hat, hbt]
      · by_cases hbt : b.realtime_departure = t <;>
          simp [List.filter_cons, hat, hbt]

theorem filter_insertionSort_rt (l : List Departure) (t : Int) :
    (List.insertionSort depLE l).filter
        (fun x => decide (x.realtime_departure = t)) =
      l.filter (fun x => decide (x.realtime_departure = t)) := by
  induction l with
  | nil => rfl
  | cons a l ih =>
    show (List.orderedInsert depLE a (List.insertionSort depLE l)).filter _ = _
    rw [filter_orderedInsert_rt, List.filter_cons]
    by_cases h : a.realtime_departure = t
    · rw [if_pos h, ih]
      simp [h]
    · rw [if_neg h, ih]
      simp [h]

/-- C3 counterexample: `exDepOther` and `exDepEarly` share a
`realtime_departure` but sit in different groups; in the input the former
comes first, in the snapshot's `all` the latter comes first, so ties do not
retain the relative order of the original input. -/
theorem C3_counterexample :
    exDepOther.realtime_departure = exDepEarly.realtime_departure ∧
      List.indexOf exDepOther exInput < List.indexOf exDepEarly exInput ∧
      List.indexOf exDepEarly (async_update_departures_core [] [] 10 exInput).all <
        List.indexOf exDepOther (async_update_departures_core [] [] 10 exInput).all := by
  decide

/-- C3 (amended): the snapshot's `all` is sorted non-decreasing by
`realtime_departure`, and on equal `realtime_departure` values entries
retain their relative order from the concatenation of the truncated groups
(groups in first-appearance order of their key), not necessarily from the
original input. -/
theorem C3_all_sorted_and_stable (sl sd : List String) (count : Nat)
    (deps : List Departure) :
    List.Sorted depLE (async_update_departures_core sl sd count deps).all ∧
      ∀ t : Int,
        (async_update_departures_core sl sd count deps).all.filter
            (fun x => decide (x.realtime_departure = t)) =
          (all_filtered (snapshot_grouped sl sd count deps)).filter
            (fun x => decide (x.realtime_departure = t)) :=
  ⟨List.sorted_insertionSort depLE _, fun t => filter_insertionSort_rt _ t⟩

/-- C4: with a positive limit, every stored group is the sort of its raw
bucket by `realtime_departure` truncated to the first `count` entries, and
hence has length at most `count`. -/
theorem C4_group_truncated_sorted (sl sd : List String) (deps : List Departure)
    (count : Nat) (hcount : 0 < count)
    (kg : (String × String) × List Departure)
    (hkg : kg ∈ (async_update_departures_core sl sd count deps).grouped) :
    kg.2.length ≤ count ∧
      ∃ g ∈ group_departures sl sd deps,
        kg = (g.1, (List.insertionSort depLE g.2).take count) := by
  have hmem : kg ∈ sort_and_limit count (group_departures sl sd deps) := hkg
  rw [sort_and_limit, List.mem_map] at hmem
  obtain ⟨g, hg, rfl⟩ := hmem
  exact ⟨List.length_take_le count _, g, hg, rfl⟩

/-- C4 witness: a concrete group truncated to limit 1 has length at most 1. -/
theorem C4_group_truncated_sorted_witness :
    0 < 1 ∧
      (("L1", "D"), [exDepEarly]) ∈
        (async_update_departures_core [] [] 1 exInput).grouped ∧
      (("L1", "D"), ([exDepEarly] : List Departure)).2.length ≤ 1 :=
  ⟨Nat.one_pos, by decide,
    (C4_group_truncated_sorted [] [] exInput 1 Nat.one_pos
      (("L1", "D"), [exDepEarly]) (by decide)).1⟩

/-- C5: the snapshot's `next` is the head of `all` when `all` is non-empty
and `none` when `all` is empty, and the empty input list yields the empty
snapshot. -/
theorem C5_next_is_head (sl sd : List String) (count : Nat)
    (deps : List Departure) :
    ((async_update_departures_core sl sd count deps).all = [] →
        (async_update_departures_core sl sd count deps).next = none) ∧
      (∀ d rest,
        (async_update_departures_core sl sd count deps).all = d :: rest →
          (async_update_departures_core sl sd count deps).next = some d) ∧
      async_update_departures_core sl sd count [] =
        { all := [], grouped := [], next := none } := by
  refine ⟨?_, ?_, rfl⟩
  · intro h
    show (snapshot_all sl sd count deps).head? = none
    rw [show snapshot_all sl sd count deps = [] from h]
    rfl
  · intro d rest h
    show (snapshot_all sl sd count deps).head? = some d
    rw [show snapshot_all sl sd count deps = d :: rest from h]
    rfl

/-- C5 witness: on the concrete input the `next` field is the earliest
departure of `all`. -/
theorem C5_next_is_head_witness :
    (async_update_departures_core [] [] 10 exInput).next = some exDepEarly :=
  (C5_next_is_head [] [] 10 exInput).2.1 exDepEarly [exDepOther, exDepLate]
    (by decide)

theorem message_keep_iff (sl : List String) (now : Int) (msg : Message) :
    message_keep sl now msg = true ↔ message_keep_spec sl now msg := by
  unfold message_keep message_keep_spec
  cases msg.valid_from <;> cases msg.valid_to <;>
    simp [List.isEmpty_iff, List.contains_iff_exists_mem_beq, beq_iff_eq,
      and_assoc]

/-- C6: the message filter keeps a message iff (its lines list is empty or
intersects the selected lines) and (valid_from is absent or at most now)
and (valid_to is absent or at least now); the output is a sublist of the
input, so the kept messages appear in input order. -/
theorem C6_filter_messages_keep_iff (messages : List Message)
    (sl : List String) (now : Int) :
    List.Sublist (filter_messages sl now messages) messages ∧
      ∀ msg, msg ∈ filter_messages sl now messages ↔
        msg ∈ messages ∧ message_keep_spec sl now msg := by
  refine ⟨List.filter_sublist _, fun msg => ?_⟩
  rw [filter_messages, List.mem_filter, message_keep_iff]

/-- C7: the icon lookup is total: each of the six known transport types maps
to its fixed icon and every other string maps to the default icon. -/
theorem C7_get_icon_total :
    (get_icon "UBAHN" = "mdi:subway-variant" ∧
        get_icon "TRAM" = "mdi:tram" ∧
        get_icon "SBAHN" = "mdi:train" ∧
        get_icon "BUS" = "mdi:bus" ∧
        get_icon "REGIONAL_BUS" = "mdi:bus-clock" ∧
        get_icon "RUFTAXI" = "mdi:taxi") ∧
      ∀ s : String, s ≠ "UBAHN" → s ≠ "TRAM" → s ≠ "SBAHN" → s ≠ "BUS" →
        s ≠ "REGIONAL_BUS" → s ≠ "RUFTAXI" → get_icon s = "mdi:train-car" := by
  refine ⟨by decide, ?_⟩
  intro s h1 h2 h3 h4 h5 h6
  have e1 : (s == "UBAHN") = false := beq_eq_false_iff_ne.mpr h1
  have e2 : (s == "TRAM") = false := beq_eq_false_iff_ne.mpr h2
  have e3 : (s == "SBAHN") = false := beq_eq_false_iff_ne.mpr h3
  have e4 : (s == "BUS") = false := beq_eq_false_iff_ne.mpr h4
  have e5 : (s == "REGIONAL_BUS") = false := beq_eq_false_iff_ne.mpr h5
  have e6 : (s == "RUFTAXI") = false := beq_eq_false_iff_ne.mpr h6
  simp [get_icon, icons, List.lookup, e1, e2, e3, e4, e5, e6]

/-- C7 witness: an unknown transport type gets the default icon. -/
theorem C7_get_icon_total_witness :
    get_icon "UNKNOWN_TYPE" = "mdi:train-car" :=
  C7_get_icon_total.2 "UNKNOWN_TYPE" (by decide) (by decide) (by decide)
    (by decide) (by decide) (by decide)

/-- C8: a failed fetch makes the departure refresh return the empty snapshot
and the message refresh return the empty message list instead of
propagating the error. -/
theorem C8_fetch_error_yields_empty (e1 e2 : String) (sl sd : List String)
    (count : Nat) :
    async_update_departures sl sd count (Except.error e1) =
        { all := [], grouped := [], next := none } ∧
      async_update_messages (Except.error e2) = [] :=
  ⟨rfl, rfl⟩

/-- C9: the validity formatter has exactly four output shapes: same-day
bounds give one date with two times, different-day bounds give two full
date-times, a sole start bound gives the literal prefix "From ", a sole end
bound gives the literal prefix "Until ", and no bounds give the literal
"No specific time". -/
theorem C9_format_validity_shapes :
    (∀ f t : PyDateTime, same_date f t = true →
        format_validity (some f) (some t) =
          strftime_dmY f ++ " " ++ strftime_HM f ++ " - " ++ strftime_HM t) ∧
      (∀ f t : PyDateTime, same_date f t = false →
        format_validity (some f) (some t) =
          strftime_dmY_HM f ++ " - " ++ strftime_dmY_HM t) ∧
      (∀ f : PyDateTime, ∃ rest,
        format_validity (some f) none = "From " ++ rest) ∧
      (∀ t : PyDateTime, ∃ rest,
        format_validity none (some t) = "Until " ++ rest) ∧
      format_validity none none = "No specific time" := by
  refine ⟨?_, ?_, fun f => ⟨_, rfl⟩, fun t => ⟨_, rfl⟩, rfl⟩
  · intro f t h
    simp [format_validity, h]
  · intro f t h
    simp [format_validity, h]

/-- C9 witness: a concrete same-day pair yields the single-date range. -/
theorem C9_format_validity_shapes_witness :
    format_validity (some exDateA) (some exDateB) =
      strftime_dmY exDateA ++ " " ++ strftime_HM exDateA ++ " - " ++
        strftime_HM exDateB :=
  C9_format_validity_shapes.1 exDateA exDateB (by decide)

/-- C10: the minutes-until computation never returns a negative value, and a
timestamp at or before now is clamped to 0. -/
theorem C10_minutes_until_nonneg (timestamp now : Int) :
    0 ≤ calculate_minutes_until timestamp now ∧
      (timestamp ≤ now → calculate_minutes_until timestamp now = 0) := by
  refine ⟨le_max_left 0 _, fun h => ?_⟩
  have hle : Int.tdiv (timestamp - now) 60 ≤ 0 := by
    have hk : timestamp - now = -(now - timestamp) := by ring
    rw [hk, Int.neg_tdiv]
    have : 0 ≤ Int.tdiv (now - timestamp) 60 :=
      Int.tdiv_nonneg (by omega) (by omega)
    omega
  exact max_eq_left hle

/-- C10 witness: a past timestamp yields 0 minutes. -/
theorem C10_minutes_until_nonneg_witness :
    calculate_minutes_until 100 200 = 0 :=
  (C10_minutes_until_nonneg 100 200).2 (by decide)

/-- C1: evaluation of the normalization stage at a record that lacks
`realtimeDepartureTime` but has `plannedDepartureTime` and all identity
fields: instead of falling back to the planned time and keeping the batch,
the code raises (None divided by int) and the whole batch is lost. -/
theorem C1_missing_timestamp_propagates :
    fetch_departures_normalize [exRawGood, exRawPlannedOnly] =
      Except.error "TypeError: unsupported operand for /: NoneType and int" :=
  rfl
